import Mathlib

/-!
Verification development for the DeepSense repository.

The Python sources are shallowly embedded: Python strings become `String`
(or `List Char` where the algorithm walks characters), Python dicts and
JSON-serializable values become the inductive `PyValue`, raised exceptions
become `Except`, and functions whose behaviour depends on external services
(S3, MongoDB, the LLM subgraph, tiktoken) take the outcome of that external
call as an explicit parameter.
-/

set_option autoImplicit false

namespace DeepSense

/-- Embedding of the Python/JSON values the repository passes around:
strings, integers, booleans, `None`, lists and (insertion-ordered) dicts.
Floats never occur in the verified code paths and are omitted. -/
inductive PyValue where
  | str (s : String)
  | int (n : Int)
  | bool (b : Bool)
  | none
  | list (items : List PyValue)
  | dict (entries : List (String × PyValue))

/-- JSON escaping of a single character, as Python json.dumps performs it
for the characters that occur in this development. -/
def jsonEscapeChar (c : Char) : String :=
  if c = '"' then "\\\""
  else if c = '\\' then "\\\\"
  else if c = '\n' then "\\n"
  else if c = '\t' then "\\t"
  else if c = '\r' then "\\r"
  else String.singleton c

/-- JSON string literal: quote and escape. -/
def jsonQuote (s : String) : String :=
  "\"" ++ String.join (s.data.map jsonEscapeChar) ++ "\""

/-- Rendering of a scalar `PyValue` exactly as Python json.dumps renders it. -/
def jsonScalar : PyValue → String
  | .str s => jsonQuote s
  | .int n => toString n
  | .bool b => if b then "true" else "false"
  | .none => "null"
  | .list _ => ""
  | .dict _ => ""

mutual

/-- Python json.dumps with explicit separators (`itemSep` between items,
`kvSep` between a key and its value), no indentation.  The default call
json.dumps(x) has separators (", ", ": "); the compact call used by
estimate_token_count has separators (",", ":"). -/
def pyDumpsVal (itemSep kvSep : String) : PyValue → String
  | .list items => "[" ++ pyDumpsItems itemSep kvSep items ++ "]"
  | .dict entries => "\x7b" ++ pyDumpsEntries itemSep kvSep entries ++ "\x7d"
  | v => jsonScalar v

/-- Items of a JSON array joined by `itemSep`. -/
def pyDumpsItems (itemSep kvSep : String) : List PyValue → String
  | [] => ""
  | [v] => pyDumpsVal itemSep kvSep v
  | v :: rest => pyDumpsVal itemSep kvSep v ++ itemSep ++ pyDumpsItems itemSep kvSep rest

/-- Entries of a JSON object joined by `itemSep`, key and value joined by `kvSep`. -/
def pyDumpsEntries (itemSep kvSep : String) : List (String × PyValue) → String
  | [] => ""
  | [(k, v)] => jsonQuote k ++ kvSep ++ pyDumpsVal itemSep kvSep v
  | (k, v) :: rest =>
      jsonQuote k ++ kvSep ++ pyDumpsVal itemSep kvSep v ++ itemSep ++
        pyDumpsEntries itemSep kvSep rest

end

/-- Python json.dumps(x) with default separators, as called on the result
dict in schema_discovery_wrapper. -/
def pyDumps (v : PyValue) : String := pyDumpsVal ", " ": " v

/-- Python json.dumps(x, separators=(",", ":")), the compact representation
used by estimate_token_count for dicts and lists. -/
def pyDumpsCompact (v : PyValue) : String := pyDumpsVal "," ":" v

/-! ## src/utils/token_utils.py -/

/-- Type dispatch at the top of estimate_token_count: dicts and lists are
compact-serialized, strings pass through, everything else is rejected
(Python raises ValueError).  Returns the data_str when accepted. -/
def estimateDataStr : PyValue → Option String
  | .dict entries => some (pyDumpsCompact (.dict entries))
  | .list items => some (pyDumpsCompact (.list items))
  | .str s => some s
  | _ => Option.none

/-- Check whether estimate_token_count accepts the value without raising:
exactly dicts, lists and strings. -/
def isEstimable : PyValue → Bool
  | .dict _ => true
  | .list _ => true
  | .str _ => true
  | _ => false

/-- Claude branch of estimate_token_count: int(len(data_str) / 3.5).
Over Python non-negative ints this is exact floor division by 7/2, so it is
2 * len / 7 in natural-number division. -/
def claudeEstimate (s : String) : Nat := 2 * s.length / 7

/-- Same character-ratio estimator on the List-Char view of a Python
string, used by the chunking embedding which walks characters. -/
def claudeEstimateL (cs : List Char) : Nat := 2 * cs.length / 7

/-- Embedding of estimate_token_count(data, model).  The tiktoken path
(models whose lowercased name does not contain "claude") is abstracted by
the parameter tiktokenLen, the length of the tiktoken encoding of the
serialized data; the KeyError on an unknown model name is caught in the
source with a fallback encoding, so that path is total.  The only raise
surviving in the source is the ValueError of the type dispatch, embedded
as the Except error case. -/
def estimate_token_count (tiktokenLen : String → Nat) (data : PyValue)
    (model : String) : Except String Nat :=
  match estimateDataStr data with
  | Option.none => .error "Data must be a JSON-serializable dict, list, or string"
  | some data_str =>
      if "claude".data <:+: model.toLower.data then
        .ok (claudeEstimate data_str)
      else
        .ok (tiktokenLen data_str)

/-- Punctuation-boundary search of the long-line fallback in
chunk_data_by_tokens: split_point = char_limit unless one of the indices
char_limit, char_limit - 1, ..., max(0, char_limit - 100) + 1 (in that
order) holds one of the characters ",.;!?", in which case split_point is
that index plus one.  Indices are in bounds at every call site
(len(remaining) > char_limit); getD supplies a dummy out-of-range default. -/
def findSplitPoint (remaining : List Char) (char_limit : Nat) : Nat :=
  match ((List.range' (char_limit - 100 + 1) (char_limit - (char_limit - 100))).reverse).find?
      (fun i => [',', '.', ';', '!', '?'].contains (remaining.getD i ' ')) with
  | some i => i + 1
  | Option.none => char_limit

/-- Long-line fallback loop of chunk_data_by_tokens: while characters
remain, emit the whole remainder once it fits in char_limit = max_tokens*4
characters, otherwise cut at findSplitPoint and continue.  The Python
while-loop is embedded with explicit fuel; for max_tokens >= 1 every
iteration consumes at least one character, so fuel = length + 1 is never
exhausted (for max_tokens = 0 the Python loop does not terminate). -/
def splitLongLine (max_tokens : Nat) : Nat → List Char → List (List Char)
  | 0, _ => []
  | _, [] => []
  | Nat.succ fuel, remaining =>
      let char_limit := max_tokens * 4
      if remaining.length ≤ char_limit then [remaining]
      else
        let split_point := findSplitPoint remaining char_limit
        remaining.take split_point ::
          splitLongLine max_tokens fuel (remaining.drop split_point)

/-- Embedding of chunk_data_by_tokens(data, max_tokens, model).  The
estimator est is estimate_token_count specialized to the model argument
(the claude character-ratio estimator at the call sites of
summarizer_graph.py, which pass model="claude-3-opus").  The source splits
the text on newline characters and then, for each line: if the line's
estimate is strictly below max_tokens the line itself is appended as a
chunk; otherwise the character fallback splits it.  The dead local
accumulators current_chunk / current_tokens of the source are never read
and do not affect the result. -/
def chunk_data_by_tokens (est : List Char → Nat) (data : List Char)
    (max_tokens : Nat) : List (List Char) :=
  (data.splitOn '\n').flatMap fun line =>
    if est line < max_tokens then [line]
    else splitLongLine max_tokens (line.length + 1) line

/-! ## Compaction Engine: schema_discovery_wrapper

Two variants exist in the repository, src/deepsense/summarizer_graph.py and
src/graph/summarizer_graph.py.  In both, the wrapper chunks the tool
output, invokes the LLM schema-discovery subgraph, and then builds a
synthetic ToolMessage from the subgraph response.  The subgraph response
(processing_mode, final_schema, final_summary) and the outcome of
upload_json_to_s3 are external and enter the embedding as parameters; the
embedded functions cover everything the wrapper does with them from step 7
of the source onwards. -/

/-- Synthetic message produced by the wrapper: LangChain ToolMessage with
a tool_call_id and a content payload. -/
structure ToolMsg where
  tool_call_id : String
  content : PyValue

/-- State update returned by schema_discovery_wrapper:
dict(tool_output=None, messages=[tool_msg]). -/
structure WrapperUpdate where
  tool_output : Option PyValue
  messages : List ToolMsg

/-- Lookup in an insertion-ordered Python dict, Python dict.get(k). -/
def pyGet (entries : List (String × PyValue)) (k : String) : Option PyValue :=
  (entries.find? (fun kv => kv.1 == k)).map (fun kv => kv.2)

/-- Embedding of steps 7-8 of schema_discovery_wrapper in
src/deepsense/summarizer_graph.py (lines 543-596).  data is the original
tool result content; it is forwarded to upload_json_to_s3 (whose outcome
is the upload parameter) and otherwise does not influence the emitted
message.  In schema mode the result dict is data_schema plus the uploaded
https_url, and an upload failure re-raises (Except.error), so no message
is emitted; in summarize mode the message content is final_summary itself,
otherwise it is json.dumps of the result dict. -/
def deepsense_schema_discovery_emit (data : String) (tool_call_id : String)
    (processing_mode : String) (final_schema final_summary : PyValue)
    (upload : Except String (List (String × PyValue))) :
    Except String WrapperUpdate :=
  let _ := data
  match (if processing_mode == "schema" then
           match upload with
           | .ok s3_upload =>
               .ok [("data_schema", final_schema),
                    ("data_uri", (pyGet s3_upload "https_url").getD PyValue.none)]
           | .error e => .error ("Error uploading to S3: " ++ e)
         else
           .ok [("data_summary", final_summary),
                ("processing_mode", PyValue.str "summarize")] :
        Except String (List (String × PyValue))) with
  | .error e => .error e
  | .ok result =>
      let json_result : PyValue :=
        if processing_mode == "summarize" then final_summary
        else .str (pyDumps (.dict result))
      .ok ⟨Option.none, [⟨tool_call_id, json_result⟩]⟩

/-- Image selection in run_script: "sandbox-node" for language "node",
otherwise "sandbox-python". -/
def run_script_image (language : String) : String :=
  if language == "node" then "sandbox-node" else "sandbox-python"

/-- Argument vector of the subprocess.run docker invocation in run_script
(server.py lines 41-46).  uid is the uuid4 of the request; script_dir is
os.path.join(BASE_DIR, uid) with BASE_DIR = "/tmp/exec_sandbox", and it is
bind-mounted into the container. -/
def run_script_docker_args (language : String) (uid : String) :
    List String :=
  ["docker", "run", "--rm",
   "--memory=256m", "--cpus=0.5",
   "-v", "/tmp/exec_sandbox/" ++ uid ++ ":/home/sandbox/script",
   run_script_image language]

/-- Argument vector of the pip-install subprocess the Python runner spawns
inside the sandbox container when the request carries requirements
(runner.py lines 17-20); sys.executable is rendered as "python". -/
def runner_pip_install_args (reqs : List String) : List String :=
  ["python", "-m", "pip", "install",
   "--quiet", "--no-warn-script-location", "--disable-pip-version-check"] ++ reqs

/-! ## Tool registry: src/deepsense/datasource.py -/

/-- Two-space indentation prefix at nesting level lvl, as produced by
json.dumps(..., indent=2). -/
def jsonIndent (lvl : Nat) : String := String.join (List.replicate lvl "  ")

mutual

/-- Python json.dumps(x, indent=2) (separators default to ("," , ": ")
when an indent is given): containers open on their own line, children are
indented two further spaces, empty containers print without newlines. -/
def pyDumps2Val (lvl : Nat) : PyValue → String
  | .list [] => "[]"
  | .list items =>
      "[\n" ++ pyDumps2Items (lvl + 1) items ++ "\n" ++ jsonIndent lvl ++ "]"
  | .dict [] => "\x7b\x7d"
  | .dict entries =>
      "\x7b\n" ++ pyDumps2Entries (lvl + 1) entries ++ "\n" ++ jsonIndent lvl ++ "\x7d"
  | v => jsonScalar v

/-- Array items of the indented rendering, one per line, comma-separated. -/
def pyDumps2Items (lvl : Nat) : List PyValue → String
  | [] => ""
  | [v] => jsonIndent lvl ++ pyDumps2Val lvl v
  | v :: rest =>
      jsonIndent lvl ++ pyDumps2Val lvl v ++ ",\n" ++ pyDumps2Items lvl rest

/-- Object entries of the indented rendering, one per line, comma-separated. -/
def pyDumps2Entries (lvl : Nat) : List (String × PyValue) → String
  | [] => ""
  | [(k, v)] => jsonIndent lvl ++ jsonQuote k ++ ": " ++ pyDumps2Val lvl v
  | (k, v) :: rest =>
      jsonIndent lvl ++ jsonQuote k ++ ": " ++ pyDumps2Val lvl v ++ ",\n" ++
        pyDumps2Entries lvl rest

end

/-- Python json.dumps(x, indent=2), the serialization every tool wrapper in
datasource.py applies to dict and list results. -/
def pyDumpsIndent2 (v : PyValue) : String := pyDumps2Val 0 v

/-- Python str() of the scalar values a tool method can return; dicts and
lists never reach str() in the wrappers that use this. -/
def pyStr : PyValue → String
  | .str s => s
  | .int n => toString n
  | .bool b => if b then "True" else "False"
  | .none => "None"
  | .list items => pyDumpsVal ", " ": " (.list items)
  | .dict entries => pyDumpsVal ", " ": " (.dict entries)

/-- Final return conversion of unified_func and simple_func:
json.dumps(result, indent=2) if isinstance(result, (dict, list)) else
str(result). -/
def renderToolResult : PyValue → String
  | .dict entries => pyDumpsIndent2 (.dict entries)
  | .list items => pyDumpsIndent2 (.list items)
  | v => pyStr v

/-- Python isinstance(result, dict). -/
def isPyDict : PyValue → Bool
  | .dict _ => true
  | _ => false

/-- Test "user_action" in result for a Python dict. -/
def hasUserActionKey (entries : List (String × PyValue)) : Bool :=
  (entries.find? (fun kv => kv.1 == "user_action")).isSome

/-- User-action post-processing shared verbatim by unified_func (datasource.py
lines 316-326) and simple_func (lines 357-367): a dict result gets
user_action = True appended unless the key is already present (any value
is preserved); every other result is replaced by the wrapper dict
with user_action, data, timestamp and source. -/
def userActionStamp (source now : String) : PyValue → PyValue
  | .dict entries =>
      if hasUserActionKey entries then .dict entries
      else .dict (entries ++ [("user_action", .bool true)])
  | v => .dict [("user_action", .bool true), ("data", v),
                ("timestamp", .str now), ("source", .str source)]

/-- One entry of the methods_list closed over by unified_func: method name,
the registered user_action flag, the parameter names of the bound method's
signature, and the bound method itself.  A raised Python exception is the
Except error case. -/
structure MethodData where
  method_name : String
  user_action : Bool
  params : List String
  method : List (String × PyValue) → Except String PyValue

/-- Keyword-argument filter of unified_func (datasource.py lines 309-311):
kwargs restricted to the names in the method signature, minus "self". -/
def unifiedFilterKwargs (params : List String) (kwargs : List (String × PyValue)) :
    List (String × PyValue) :=
  kwargs.filter fun kv => params.contains kv.1 && kv.1 != "self"

/-- Embedding of unified_func (datasource.py lines 302-332): dispatch on the
action name over methods_list (first match wins), filter the keyword
arguments to the chosen method's signature, call it, apply the user_action
stamping when the registered flag is set, and serialize; a raised
exception becomes the error dict with the action name, an unknown action
the error dict with the available actions. -/
def unified_func (methods_list : List MethodData) (source now : String)
    (action : String) (kwargs : List (String × PyValue)) : String :=
  match methods_list.find? (fun md => md.method_name == action) with
  | some md =>
      match md.method (unifiedFilterKwargs md.params kwargs) with
      | .ok result =>
          renderToolResult
            (if md.user_action then userActionStamp source now result else result)
      | .error e =>
          pyDumpsIndent2 (.dict [("error", .str e), ("action", .str action)])
  | Option.none =>
      pyDumpsIndent2 (.dict
        [("error", .str ("Unknown action: " ++ action)),
         ("available_actions", .list (methods_list.map (fun md => .str md.method_name)))])

/-- Embedding of simple_func (datasource.py lines 352-372): the positional
and keyword arguments pass through to the method untouched, so the
embedding takes the method call's outcome directly; the user_action
stamping and serialization are the same as in unified_func and a raised
exception becomes the bare error dict. -/
def simple_func (user_action_flag : Bool) (source now : String)
    (methodResult : Except String PyValue) : String :=
  match methodResult with
  | .ok result =>
      renderToolResult
        (if user_action_flag then userActionStamp source now result else result)
  | .error e => pyDumpsIndent2 (.dict [("error", .str e)])

/-- Python result.get("user_action") != True of create_tool_from_method,
negated: true when the dict holds a value equal (by Python ==) to True
under "user_action".  Python's == identifies True with 1. -/
def userActionIsTrue (entries : List (String × PyValue)) : Bool :=
  match pyGet entries "user_action" with
  | some (.bool true) => true
  | some (.int n) => n == 1
  | _ => false

/-- Embedding of tool_func built by create_tool_from_method (datasource.py
lines 483-511).  Unlike the decorator wrappers, with use_user_action set a
dict result without a true user_action flag is wrapped whole under "data"
(not stamped in place), a non-dict result is wrapped with
data = dict(result=value), string results are returned as is and every
other result is serialized with json.dumps(..., indent=2). -/
def tool_func (use_user_action : Bool) (source_name method_name now : String)
    (methodResult : Except String PyValue) : String :=
  match methodResult with
  | .ok result =>
      let result :=
        match result with
        | .dict entries =>
            if use_user_action && !userActionIsTrue entries then
              PyValue.dict [("user_action", .bool true), ("data", .dict entries),
                            ("timestamp", .str now), ("source", .str source_name)]
            else .dict entries
        | v =>
            if use_user_action then
              PyValue.dict [("user_action", .bool true),
                            ("data", .dict [("result", v)]),
                            ("timestamp", .str now), ("source", .str source_name)]
            else v
      match result with
      | .str s => s
      | v => pyDumpsIndent2 v
  | .error e =>
      pyDumpsIndent2 (.dict [("error", .str e), ("source", .str source_name),
                             ("method", .str method_name)])

/-! ## Session store: src/deepsense/checkpointer.py -/

/-- Session document inserted by MongoDBCheckpointer.create_session;
created_at and updated_at carry the datetime.utcnow() value. -/
structure SessionDoc where
  session_id : String
  user_id : Option String
  created_at : String
  updated_at : String
  status : String
deriving Repr, DecidableEq

/-- The sessions collection, with its documents in insertion order.  The
collection carries a unique index on session_id. -/
abbrev SessionStore := List SessionDoc

/-- MongoDB find_one(dict(session_id=sid)) over the sessions collection. -/
def sessions_find_one (store : SessionStore) (sid : String) : Option SessionDoc :=
  store.find? (fun d => d.session_id == sid)

/-- MongoDB insert_one under the unique index on session_id: a duplicate
raises DuplicateKeyError (E11000), otherwise the document is appended. -/
def sessions_insert_one (store : SessionStore) (doc : SessionDoc) :
    Except String SessionStore :=
  if (sessions_find_one store doc.session_id).isSome then
    .error "E11000 duplicate key error"
  else .ok (store ++ [doc])

/-- Number of stored session documents carrying the given session_id. -/
def sessionCount (store : SessionStore) (sid : String) : Nat :=
  (store.filter (fun d => d.session_id == sid)).length

/-- Embedding of MongoDBCheckpointer.create_session (checkpointer.py lines
75-117).  now is datetime.utcnow() and freshUuid the value uuid.uuid4()
would produce.  The source gates on Python truthiness: `if session_id:` is
false for None and for the empty string, so a supplied "" skips the
existence check, and `if not session_id:` then replaces it with a fresh
uuid — only a non-empty supplied id can short-circuit or be inserted as
is.  A truthy id already stored is returned with the store untouched;
otherwise a document is inserted, a DuplicateKeyError from the unique
index is swallowed (the source re-raises every other error, and the
embedded insert raises nothing else), and the id is returned. -/
def create_session (store : SessionStore) (now freshUuid : String)
    (user_id session_id : Option String) : String × SessionStore :=
  match session_id with
  | some sid =>
      if sid == "" then
        match sessions_insert_one store ⟨freshUuid, user_id, now, now, "active"⟩ with
        | .ok store2 => (freshUuid, store2)
        | .error _ => (freshUuid, store)
      else if (sessions_find_one store sid).isSome then (sid, store)
      else
        match sessions_insert_one store ⟨sid, user_id, now, now, "active"⟩ with
        | .ok store2 => (sid, store2)
        | .error _ => (sid, store)
  | Option.none =>
      match sessions_insert_one store ⟨freshUuid, user_id, now, now, "active"⟩ with
      | .ok store2 => (freshUuid, store2)
      | .error _ => (freshUuid, store)

/-! ## Agent Loop entry point: src/graph/planner_react_agent.py -/

/-- Recursion limit the entry point passes to app.invoke in its config
(planner_react_agent.py line 343). -/
def planner_recursion_limit : Nat := 50

/-- Value the caller of run_planner_react_agent receives: the final graph
state on success, or a bare string from the except handler. -/
inductive PlannerReturn where
  | finalState (s : List (String × PyValue))
  | bareString (s : String)

/-- Embedding of run_planner_react_agent (planner_react_agent.py lines
320-348).  invoke abstracts app.invoke as a function of the configured
recursion limit; exceeding the transition limit makes LangGraph raise
GraphRecursionError, the Except error case.  Any exception is caught by
the blanket handler, which returns the f-string "Error:" (interpolating
nothing); on success the final state dict is returned. -/
def run_planner_react_agent (invoke : Nat → Except String (List (String × PyValue))) :
    PlannerReturn :=
  match invoke planner_recursion_limit with
  | .ok result => .finalState result
  | .error _ => .bareString "Error:"

/-! ## Claims -/

/-- C10: estimate_token_count raises ValueError exactly when its input is
neither a dict, a list, nor a string; scalar values (numbers, booleans,
None) are rejected with the ValueError message of the source rather than
serialized and estimated.  Stated over every tiktoken oracle and every
model name, since the type dispatch precedes the model branch. -/
theorem estimate_token_count_valueError_iff
    (tiktokenLen : String → Nat) (model : String) (data : PyValue) :
    ((∃ msg, estimate_token_count tiktokenLen data model = .error msg)
       ↔ isEstimable data = false)
    ∧ (estimate_token_count tiktokenLen data model
         = .error "Data must be a JSON-serializable dict, list, or string"
       ↔ isEstimable data = false) := by
  cases data <;>
    simp [estimate_token_count, estimateDataStr, isEstimable] <;>
    split <;> simp

/-- C7 (amended): run_planner_react_agent passes recursion_limit = 50 to
the graph, and when the graph raises (as LangGraph does on exceeding the
transition limit) the blanket except handler returns the bare string
"Error:" to the caller — the exception does not propagate, and no
diagnostic assistant message is produced. -/
theorem planner_limit_and_overflow_return
    (invoke : Nat → Except String (List (String × PyValue))) (e : String)
    (hover : invoke planner_recursion_limit = .error e) :
    planner_recursion_limit = 50
    ∧ run_planner_react_agent invoke = .bareString "Error:" := by
  refine ⟨rfl, ?_⟩
  unfold run_planner_react_agent
  rw [hover]

/-- Witness for planner_limit_and_overflow_return at a stub invoke that
raises the LangGraph recursion error. -/
theorem planner_limit_and_overflow_return_witness :
    planner_recursion_limit = 50
    ∧ run_planner_react_agent
        (fun _ => .error "GraphRecursionError: Recursion limit of 50 reached")
      = .bareString "Error:" :=
  planner_limit_and_overflow_return
    (fun _ => .error "GraphRecursionError: Recursion limit of 50 reached")
    "GraphRecursionError: Recursion limit of 50 reached" rfl

/-- C7 counterexample: when the transition limit is exceeded the caller
receives the bare string "Error:" — the constructor for a raw non-message
return value, not an assistant message describing the failure. -/
theorem planner_overflow_returns_bare_string :
    run_planner_react_agent
      (fun _ => .error "GraphRecursionError: Recursion limit of 50 reached")
      = .bareString "Error:" := rfl

/-- C4 (amended): every sandbox execution spawns docker run with the
memory bound --memory=256m and the CPU bound --cpus=0.5; the full argument
vector is as listed, and in particular it carries no network-related
option, so the container keeps Docker's default (enabled) networking. -/
theorem run_script_docker_resource_bounds (language uid : String) :
    "--memory=256m" ∈ run_script_docker_args language uid
    ∧ "--cpus=0.5" ∈ run_script_docker_args language uid
    ∧ run_script_docker_args language uid
        = ["docker", "run", "--rm", "--memory=256m", "--cpus=0.5",
           "-v", "/tmp/exec_sandbox/" ++ uid ++ ":/home/sandbox/script",
           run_script_image language] := by
  refine ⟨?_, ?_, rfl⟩ <;> simp [run_script_docker_args]

/-- C4 counterexample: at a concrete request, no argument of the docker
invocation is a network option (nothing starts with "--net"), so network
access is not disabled for the executed code; the runner inside the
container even spawns pip install, which requires the network. -/
theorem run_script_no_network_flag :
    (run_script_docker_args "python" "8f14e45f-ceea-467f-9f89-0d3cf2f0b0b1").all
        (fun a => !("--net".data.isPrefixOf a.data)) = true
    ∧ runner_pip_install_args ["pandas"]
        = ["python", "-m", "pip", "install", "--quiet",
           "--no-warn-script-location", "--disable-pip-version-check", "pandas"] := by
  exact ⟨by decide, rfl⟩

set_option linter.unusedVariables false in
/-- C3 (amended): the engine enforces no post-condition on the synthetic
content: in summarize mode the emitted tool message carries final_summary
verbatim even when its estimated token count strictly exceeds the
original content's, and no degradation to a truncated summary exists;
the hypothesis records that the conclusion holds in particular on inputs
that violate the claimed monotonicity. -/
theorem compaction_emits_unconditionally
    (data tcid : String) (schema : PyValue) (summary : String)
    (upload : Except String (List (String × PyValue)))
    (hgrow : claudeEstimate data < claudeEstimate summary) :
    deepsense_schema_discovery_emit data tcid "summarize" schema (.str summary) upload
      = .ok ⟨Option.none, [⟨tcid, .str summary⟩]⟩ := rfl

/-- Witness for compaction_emits_unconditionally: a one-character tool
result (estimate 0) compacted to a forty-character summary (estimate 11). -/
theorem compaction_emits_unconditionally_witness :
    deepsense_schema_discovery_emit "x" "tc" "summarize" (.dict [])
        (.str "The API returned 500 rows of block data.") (.ok [])
      = .ok ⟨Option.none, [⟨"tc", .str "The API returned 500 rows of block data."⟩]⟩ :=
  compaction_emits_unconditionally "x" "tc" (.dict [])
    "The API returned 500 rows of block data." (.ok []) (by decide)

/-- C3 counterexample: a concrete tool result of estimated size 0 whose
synthetic replacement has estimated size 11; the engine emits it
unchanged, violating estimate(new) <= estimate(original) and showing no
degradation path runs. -/
theorem compaction_estimate_not_monotone :
    deepsense_schema_discovery_emit "x" "tc" "summarize" (.dict [])
        (.str "The API returned 500 rows of block data.") (.ok [])
      = .ok ⟨Option.none, [⟨"tc", .str "The API returned 500 rows of block data."⟩]⟩
    ∧ claudeEstimate "x" = 0
    ∧ claudeEstimate "The API returned 500 rows of block data." = 11 :=
  ⟨rfl, by decide, by decide⟩

/-- Helper: the punctuation search of the fallback never returns a split
point beyond char_limit + 1, because a found index lies in the searched
descending range and the default is char_limit itself. -/
theorem findSplitPoint_le_succ (rem : List Char) (cl : Nat) :
    findSplitPoint rem cl ≤ cl + 1 := by
  unfold findSplitPoint
  split
  · next i hf =>
      have hm := List.mem_of_find?_eq_some hf
      rw [List.mem_reverse, List.mem_range'_1] at hm
      omega
  · omega

/-- Helper: unfolding equation of the fallback loop at positive fuel and a
nonempty remainder. -/
theorem splitLongLine_succ_cons (M n : Nat) (a : Char) (rest : List Char) :
    splitLongLine M (n + 1) (a :: rest)
      = if (a :: rest).length ≤ M * 4 then [a :: rest]
        else (a :: rest).take (findSplitPoint (a :: rest) (M * 4)) ::
          splitLongLine M n ((a :: rest).drop (findSplitPoint (a :: rest) (M * 4))) := rfl

/-- Helper: every piece the long-line fallback emits has at most
4 * max_tokens + 1 characters, whatever the fuel and the remainder. -/
theorem splitLongLine_length_le (M : Nat) :
    ∀ (fuel : Nat) (rem c : List Char),
      c ∈ splitLongLine M fuel rem → c.length ≤ 4 * M + 1 := by
  intro fuel
  induction fuel with
  | zero => intro rem c hc; simp [splitLongLine] at hc
  | succ n ih =>
      intro rem c hc
      cases rem with
      | nil => simp [splitLongLine] at hc
      | cons a rest =>
          by_cases hlen : (a :: rest).length ≤ M * 4
          · rw [splitLongLine_succ_cons, if_pos hlen] at hc
            simp at hc
            subst hc
            omega
          · rw [splitLongLine_succ_cons, if_neg hlen] at hc
            rcases List.mem_cons.mp hc with hc | hc
            · subst hc
              have hsp := findSplitPoint_le_succ (a :: rest) (M * 4)
              rw [List.length_take]
              omega
            · exact ih _ _ hc

/-- C6 (amended): chunks coming from lines under the budget have estimated
token count strictly below max_tokens, but the character fallback cuts at
4 characters per token while the claude estimator charges one token per
3.5 characters; its pieces are bounded by 4 * max_tokens + 1 characters
only, so every chunk's estimate is bounded by (8 * max_tokens + 2) / 7 —
about max_tokens / 7 tokens above the claimed bound, not a single-token
overrun. -/
theorem chunk_data_by_tokens_estimate_bound :
    (∀ (M : Nat), 1 ≤ M → ∀ (fuel : Nat) (rem c : List Char),
       c ∈ splitLongLine M fuel rem → c.length ≤ 4 * M + 1)
    ∧ (∀ (data : List Char) (M : Nat), 1 ≤ M →
       ∀ c ∈ chunk_data_by_tokens claudeEstimateL data M,
         claudeEstimateL c ≤ (8 * M + 2) / 7) := by
  refine ⟨fun M _ => splitLongLine_length_le M, ?_⟩
  intro data M hM c hc
  unfold chunk_data_by_tokens at hc
  rw [List.mem_flatMap] at hc
  obtain ⟨line, _, hcl⟩ := hc
  by_cases h : claudeEstimateL line < M
  · rw [if_pos h] at hcl
    simp at hcl
    subst hcl
    have hbound : M ≤ (8 * M + 2) / 7 :=
      (Nat.le_div_iff_mul_le (by omega)).mpr (by omega)
    omega
  · rw [if_neg h] at hcl
    have hlen := splitLongLine_length_le M _ _ _ hcl
    unfold claudeEstimateL
    exact Nat.div_le_div_right (by omega)

set_option maxRecDepth 4000 in
/-- Witness for chunk_data_by_tokens_estimate_bound, instantiating both
parts at concrete inputs: a fallback piece of the 300-character line at
max_tokens 70, and the chunk ['a'] of the text "a\nb" at max_tokens 5. -/
theorem chunk_data_by_tokens_estimate_bound_witness :
    (List.replicate 280 'a').length ≤ 4 * 70 + 1
    ∧ claudeEstimateL ['a'] ≤ (8 * 5 + 2) / 7 := by
  constructor
  · exact chunk_data_by_tokens_estimate_bound.1 70 (by omega)
      301 (List.replicate 300 'a') (List.replicate 280 'a') (by decide)
  · exact chunk_data_by_tokens_estimate_bound.2 "a\nb".data 5 (by omega)
      ['a'] (by decide)

set_option maxRecDepth 4000 in
/-- C6 counterexample: a single 300-character line chunked at
max_tokens = 70 yields a first fallback piece of 280 characters whose
claude estimate is 80 tokens — nine tokens above the claimed bound of 70,
far beyond a degenerate single-token overrun. -/
theorem chunk_data_by_tokens_bound_violated :
    (chunk_data_by_tokens claudeEstimateL (List.replicate 300 'a') 70).head?
        = some (List.replicate 280 'a')
    ∧ claudeEstimateL (List.replicate 280 'a') = 80
    ∧ 70 + 1 < 80 := by
  refine ⟨by decide, by decide, by omega⟩

/-- C1: evaluation of chunk_data_by_tokens at the text "a\nb" with budget
5000: the two lines have a combined estimate of 0 tokens, yet the function
emits each line as its own chunk — the accumulation the spec describes
(and the dead current_chunk / current_tokens locals suggest) never
happens. -/
theorem chunk_data_by_tokens_no_accumulation :
    chunk_data_by_tokens claudeEstimateL ("a\nb".data) 5000 = [['a'], ['b']]
    ∧ claudeEstimateL ("a\nb".data) = 0 := by
  exact ⟨by decide, by decide⟩

/-- Helper: unfolding equation of create_session with an explicit id; the
outer test is the Python truthiness of the supplied id (false for ""). -/
theorem create_session_some_eq (store : SessionStore) (now uuid : String)
    (u : Option String) (sid : String) :
    create_session store now uuid u (some sid)
      = if sid == "" then
          match sessions_insert_one store ⟨uuid, u, now, now, "active"⟩ with
          | .ok store2 => (uuid, store2)
          | .error _ => (uuid, store)
        else if (sessions_find_one store sid).isSome then (sid, store)
        else
          match sessions_insert_one store ⟨sid, u, now, now, "active"⟩ with
          | .ok store2 => (sid, store2)
          | .error _ => (sid, store) := rfl

/-- Helper: unfolding equation of create_session without an id. -/
theorem create_session_none_eq (store : SessionStore) (now uuid : String)
    (u : Option String) :
    create_session store now uuid u Option.none
      = match sessions_insert_one store ⟨uuid, u, now, now, "active"⟩ with
        | .ok store2 => (uuid, store2)
        | .error _ => (uuid, store) := rfl

/-- Helper: looking up sid in a store extended by a document carrying sid
finds a document whenever the base lookup missed. -/
theorem sessions_find_one_append (store : SessionStore) (u : Option String)
    (now sid : String) (hnone : sessions_find_one store sid = Option.none) :
    sessions_find_one (store ++ [⟨sid, u, now, now, "active"⟩]) sid
      = some ⟨sid, u, now, now, "active"⟩ := by
  unfold sessions_find_one at hnone ⊢
  rw [List.find?_append, hnone]
  simp

/-- Helper: the session id a call with an explicit non-empty (truthy)
session_id returns is that id, and afterwards a document with that id is
stored. -/
theorem create_session_stores_id (store : SessionStore) (now uuid : String)
    (u : Option String) (sid : String) (hsid : (sid == "") = false) :
    (create_session store now uuid u (some sid)).1 = sid
    ∧ (sessions_find_one (create_session store now uuid u (some sid)).2 sid).isSome
        = true := by
  by_cases hpresent : (sessions_find_one store sid).isSome
  · rw [create_session_some_eq, if_neg (by simp [hsid]), if_pos hpresent]
    exact ⟨rfl, hpresent⟩
  · have hnone : sessions_find_one store sid = Option.none :=
      Option.not_isSome_iff_eq_none.mp hpresent
    have hins : sessions_insert_one store ⟨sid, u, now, now, "active"⟩
        = .ok (store ++ [⟨sid, u, now, now, "active"⟩]) := by
      unfold sessions_insert_one
      rw [hnone]
      rfl
    rw [create_session_some_eq, if_neg (by simp [hsid]), if_neg hpresent, hins]
    exact ⟨rfl, by rw [sessions_find_one_append store u now sid hnone]; rfl⟩

/-- C8 (amended): create_session is idempotent on every non-empty
(Python-truthy) session_id: under the unique-index invariant (at most one
stored document per id), a second call with the same session_id returns
that id and leaves the store untouched, exactly one document with that id
exists after the first call, and the first call already returned the id;
a falsy session_id — absent or the empty string — instead yields the
freshly generated uuid. -/
theorem create_session_idempotent
    (store : SessionStore) (now now2 uuid uuid2 : String)
    (u u2 : Option String) (sid : String)
    (hsid : (sid == "") = false)
    (huniq : ∀ s, sessionCount store s ≤ 1) :
    (create_session store now uuid u (some sid)).1 = sid
    ∧ create_session (create_session store now uuid u (some sid)).2 now2 uuid2 u2 (some sid)
        = (sid, (create_session store now uuid u (some sid)).2)
    ∧ sessionCount (create_session store now uuid u (some sid)).2 sid = 1
    ∧ (create_session store now uuid u Option.none).1 = uuid
    ∧ (create_session store now uuid u (some "")).1 = uuid := by
  obtain ⟨hret, hafter⟩ := create_session_stores_id store now uuid u sid hsid
  refine ⟨hret, ?_, ?_, ?_, ?_⟩
  · generalize hs1 : (create_session store now uuid u (some sid)).2 = s1 at hafter ⊢
    rw [create_session_some_eq, if_neg (by simp [hsid]), if_pos hafter]
  · by_cases hpresent : (sessions_find_one store sid).isSome
    · have hstore : (create_session store now uuid u (some sid)).2 = store := by
        rw [create_session_some_eq, if_neg (by simp [hsid]), if_pos hpresent]
      rw [hstore]
      obtain ⟨d, hd⟩ := Option.isSome_iff_exists.mp hpresent
      unfold sessions_find_one at hd
      have hmem := List.mem_of_find?_eq_some hd
      have hp := List.find?_some hd
      have hpos : 0 < sessionCount store sid := by
        unfold sessionCount
        exact List.length_pos.mpr
          (List.ne_nil_of_mem (List.mem_filter.mpr ⟨hmem, hp⟩))
      have := huniq sid
      omega
    · have hnone : sessions_find_one store sid = Option.none :=
        Option.not_isSome_iff_eq_none.mp hpresent
      have hins : sessions_insert_one store ⟨sid, u, now, now, "active"⟩
          = .ok (store ++ [⟨sid, u, now, now, "active"⟩]) := by
        unfold sessions_insert_one
        rw [hnone]
        rfl
      have hstore : (create_session store now uuid u (some sid)).2
          = store ++ [⟨sid, u, now, now, "active"⟩] := by
        rw [create_session_some_eq, if_neg (by simp [hsid]), if_neg hpresent, hins]
      rw [hstore]
      unfold sessionCount
      rw [List.filter_append]
      have hflt : store.filter (fun d => d.session_id == sid) = [] := by
        rw [List.filter_eq_nil_iff]
        unfold sessions_find_one at hnone
        exact List.find?_eq_none.mp hnone
      rw [hflt]
      simp
  · rw [create_session_none_eq]
    cases sessions_insert_one store ⟨uuid, u, now, now, "active"⟩ <;> rfl
  · rw [create_session_some_eq, if_pos (by decide)]
    cases sessions_insert_one store ⟨uuid, u, now, now, "active"⟩ <;> rfl

/-- Witness for create_session_idempotent on the empty store, whose
unique-index invariant holds trivially, at the truthy id "s1". -/
theorem create_session_idempotent_witness :
    (create_session [] "t1" "u-1" Option.none (some "s1")).1 = "s1"
    ∧ create_session (create_session [] "t1" "u-1" Option.none (some "s1")).2
          "t2" "u-2" Option.none (some "s1")
        = ("s1", (create_session [] "t1" "u-1" Option.none (some "s1")).2)
    ∧ sessionCount (create_session [] "t1" "u-1" Option.none (some "s1")).2 "s1" = 1
    ∧ (create_session [] "t1" "u-1" Option.none Option.none).1 = "u-1"
    ∧ (create_session [] "t1" "u-1" Option.none (some "")).1 = "u-1" :=
  create_session_idempotent [] "t1" "t2" "u-1" "u-2" Option.none Option.none "s1"
    (by decide) (fun s => by simp [sessionCount])

/-- C8 counterexample: the supplied session_id "" is falsy in Python, so
every call skips the existence check, generates a fresh uuid and inserts
a new document: two calls supplying the same session_id "" return two
different ids and grow the store - create_session is not idempotent on
the empty session_id. -/
theorem create_session_empty_id_not_idempotent :
    create_session [] "t1" "u-1" Option.none (some "")
      = ("u-1", [⟨"u-1", Option.none, "t1", "t1", "active"⟩])
    ∧ create_session [⟨"u-1", Option.none, "t1", "t1", "active"⟩] "t2" "u-2"
          Option.none (some "")
      = ("u-2", [⟨"u-1", Option.none, "t1", "t1", "active"⟩,
                 ⟨"u-2", Option.none, "t2", "t2", "active"⟩]) :=
  ⟨by decide, by decide⟩

/-- C5 (amended): after invocation of a user_action tool, the
decorator-derived paths behave as the claim states — unified_func and
simple_func stamp a dict result in place with user_action = true
(preserving an already-present flag unchanged) and wrap a non-dict result
as the dict with user_action, data, timestamp and source — but
create_tool_from_method deviates: it wraps a dict result whole under
"data" whenever its user_action value is not Python-equal to True, and
nests a non-dict result one level deeper as data = dict(result=value). -/
theorem user_action_stamping_per_path :
    (∀ (ml : List MethodData) (src now action : String) (md : MethodData)
       (kwargs entries : List (String × PyValue)),
       ml.find? (fun m => m.method_name == action) = some md →
       md.user_action = true →
       md.method (unifiedFilterKwargs md.params kwargs) = .ok (.dict entries) →
       hasUserActionKey entries = false →
       unified_func ml src now action kwargs
         = pyDumpsIndent2 (.dict (entries ++ [("user_action", .bool true)])))
    ∧ (∀ (ml : List MethodData) (src now action : String) (md : MethodData)
       (kwargs entries : List (String × PyValue)),
       ml.find? (fun m => m.method_name == action) = some md →
       md.user_action = true →
       md.method (unifiedFilterKwargs md.params kwargs) = .ok (.dict entries) →
       hasUserActionKey entries = true →
       unified_func ml src now action kwargs = pyDumpsIndent2 (.dict entries))
    ∧ (∀ (ml : List MethodData) (src now action : String) (md : MethodData)
       (kwargs : List (String × PyValue)) (v : PyValue),
       ml.find? (fun m => m.method_name == action) = some md →
       md.user_action = true →
       md.method (unifiedFilterKwargs md.params kwargs) = .ok v →
       isPyDict v = false →
       unified_func ml src now action kwargs
         = pyDumpsIndent2 (.dict [("user_action", .bool true), ("data", v),
                                  ("timestamp", .str now), ("source", .str src)]))
    ∧ (∀ (src now : String) (entries : List (String × PyValue)),
       hasUserActionKey entries = false →
       simple_func true src now (.ok (.dict entries))
         = pyDumpsIndent2 (.dict (entries ++ [("user_action", .bool true)])))
    ∧ (∀ (src now : String) (entries : List (String × PyValue)),
       hasUserActionKey entries = true →
       simple_func true src now (.ok (.dict entries)) = pyDumpsIndent2 (.dict entries))
    ∧ (∀ (src now : String) (v : PyValue), isPyDict v = false →
       simple_func true src now (.ok v)
         = pyDumpsIndent2 (.dict [("user_action", .bool true), ("data", v),
                                  ("timestamp", .str now), ("source", .str src)]))
    ∧ (∀ (srcName m now : String) (entries : List (String × PyValue)),
       userActionIsTrue entries = false →
       tool_func true srcName m now (.ok (.dict entries))
         = pyDumpsIndent2 (.dict [("user_action", .bool true), ("data", .dict entries),
                                  ("timestamp", .str now), ("source", .str srcName)]))
    ∧ (∀ (srcName m now : String) (v : PyValue), isPyDict v = false →
       tool_func true srcName m now (.ok v)
         = pyDumpsIndent2 (.dict [("user_action", .bool true),
                                  ("data", .dict [("result", v)]),
                                  ("timestamp", .str now), ("source", .str srcName)])) := by
  refine ⟨?_, ?_, ?_, ?_, ?_, ?_, ?_, ?_⟩
  · intro ml src now action md kwargs entries hfind huf hm hkey
    simp [unified_func, hfind, hm, huf, userActionStamp, hkey, renderToolResult]
  · intro ml src now action md kwargs entries hfind huf hm hkey
    simp [unified_func, hfind, hm, huf, userActionStamp, hkey, renderToolResult]
  · intro ml src now action md kwargs v hfind huf hm hv
    cases v <;> simp_all [unified_func, userActionStamp, renderToolResult, isPyDict]
  · intro src now entries hkey
    simp [simple_func, userActionStamp, hkey, renderToolResult]
  · intro src now entries hkey
    simp [simple_func, userActionStamp, hkey, renderToolResult]
  · intro src now v hv
    cases v <;> simp_all [simple_func, userActionStamp, renderToolResult, isPyDict]
  · intro srcName m now entries hflag
    simp [tool_func, hflag]
  · intro srcName m now v hv
    cases v <;> simp_all [tool_func, isPyDict]

/-- Witness for user_action_stamping_per_path, instantiating the unified
stamping, the simple-path wrapping and both create_tool_from_method
deviations at concrete inputs. -/
theorem user_action_stamping_per_path_witness :
    unified_func [⟨"get_quote", true, ["self", "amount"],
        fun _ => .ok (.dict [("price", .int 7)])⟩] "jupiter" "t0" "get_quote" []
      = pyDumpsIndent2 (.dict [("price", .int 7), ("user_action", .bool true)])
    ∧ simple_func true "jupiter" "t0" (.ok (.int 3))
      = pyDumpsIndent2 (.dict [("user_action", .bool true), ("data", .int 3),
                               ("timestamp", .str "t0"), ("source", .str "jupiter")])
    ∧ tool_func true "helius" "get_balance" "t0" (.ok (.dict [("x", .int 1)]))
      = pyDumpsIndent2 (.dict [("user_action", .bool true),
                               ("data", .dict [("x", .int 1)]),
                               ("timestamp", .str "t0"), ("source", .str "helius")])
    ∧ tool_func true "helius" "get_balance" "t0" (.ok (.int 3))
      = pyDumpsIndent2 (.dict [("user_action", .bool true),
                               ("data", .dict [("result", .int 3)]),
                               ("timestamp", .str "t0"), ("source", .str "helius")]) := by
  refine ⟨?_, ?_, ?_, ?_⟩
  · exact user_action_stamping_per_path.1 _ "jupiter" "t0" "get_quote"
      ⟨"get_quote", true, ["self", "amount"], fun _ => .ok (.dict [("price", .int 7)])⟩
      [] [("price", .int 7)] rfl rfl rfl rfl
  · exact user_action_stamping_per_path.2.2.2.2.2.1 "jupiter" "t0" (.int 3) rfl
  · exact user_action_stamping_per_path.2.2.2.2.2.2.1 "helius" "get_balance" "t0"
      [("x", .int 1)] rfl
  · exact user_action_stamping_per_path.2.2.2.2.2.2.2 "helius" "get_balance" "t0"
      (.int 3) rfl

/-- C5 counterexample: create_tool_from_method with use_user_action at a
dict return value lacking the flag: the claim requires the same dict
stamped with user_action = true, but the tool returns the wrapper dict
that nests the original object under "data". -/
theorem create_tool_from_method_wraps_not_stamps :
    tool_func true "helius" "get_txn" "2024-01-01T00:00:00"
        (.ok (.dict [("x", .int 1)]))
      = pyDumpsIndent2 (.dict [("user_action", .bool true),
                               ("data", .dict [("x", .int 1)]),
                               ("timestamp", .str "2024-01-01T00:00:00"),
                               ("source", .str "helius")])
    ∧ tool_func true "helius" "get_txn" "2024-01-01T00:00:00"
        (.ok (.dict [("x", .int 1)]))
      ≠ pyDumpsIndent2 (.dict [("x", .int 1), ("user_action", .bool true)]) := by
  exact ⟨rfl, by decide⟩

/-- C9: a unified (action-dispatched) tool restricts the keyword arguments
to the dispatched method's signature parameters before the call: appending
an argument whose name the signature does not contain leaves the tool's
output unchanged (no error is raised), and every argument that survives
the filter is a recognized parameter other than self. -/
theorem unified_func_drops_unknown_kwargs :
    (∀ (ml : List MethodData) (src now action : String) (md : MethodData)
       (kwargs : List (String × PyValue)) (k : String) (v : PyValue),
       ml.find? (fun m => m.method_name == action) = some md →
       md.params.contains k = false →
       unified_func ml src now action (kwargs ++ [(k, v)])
         = unified_func ml src now action kwargs)
    ∧ (∀ (params : List String) (kwargs : List (String × PyValue)),
       (unifiedFilterKwargs params kwargs).all
           (fun kv => params.contains kv.1 && kv.1 != "self") = true) := by
  constructor
  · intro ml src now action md kwargs k v hfind hk
    have hk2 : k ∉ md.params := by simpa using hk
    have hfilter : unifiedFilterKwargs md.params (kwargs ++ [(k, v)])
        = unifiedFilterKwargs md.params kwargs := by
      unfold unifiedFilterKwargs
      rw [List.filter_append]
      simp [hk2]
    simp [unified_func, hfind, hfilter]
  · intro params kwargs
    exact List.all_eq_true.mpr fun kv hkv => (List.mem_filter.mp hkv).2

/-- Witness for unified_func_drops_unknown_kwargs: the misspelled keyword
zz is dropped silently, so the tool output matches the call without it. -/
theorem unified_func_drops_unknown_kwargs_witness :
    unified_func [⟨"m", false, ["a"],
        fun kw => .ok (.list (kw.map fun p => .str p.1))⟩] "s" "t" "m"
        ([("a", .int 1)] ++ [("zz", .int 2)])
      = unified_func [⟨"m", false, ["a"],
          fun kw => .ok (.list (kw.map fun p => .str p.1))⟩] "s" "t" "m"
          [("a", .int 1)]
    ∧ (unifiedFilterKwargs ["a"] [("a", .int 1), ("zz", .int 2)]).all
        (fun kv => ["a"].contains kv.1 && kv.1 != "self") = true := by
  constructor
  · exact unified_func_drops_unknown_kwargs.1 _ "s" "t" "m" _
      [("a", .int 1)] "zz" (.int 2) rfl rfl
  · exact unified_func_drops_unknown_kwargs.2 ["a"] [("a", .int 1), ("zz", .int 2)]

end DeepSense
